import Mathlib

/-!
# Verification of `CC3MDataset` (src/dinov2/data/datasets/cc3m.py)

A shallow embedding of the CC3M image-folder dataset adapter:

* the filesystem is a rose tree of named entries; `osWalk` models Python's
  `os.walk` top-down traversal (the tuple's middle component, the directory
  name list, is unused by the source and therefore omitted);
* Python strings are Lean `String`s; `str.lower`, `str.endswith`,
  lexicographic comparison (`list.sort`) and substring tests (`in`) are
  modelled on the underlying code-point lists, matching CPython's
  code-point semantics for the ASCII data the adapter manipulates;
* Python exceptions are an explicit error type threaded through `Except`:
  `IndexError` (sequence access), `RuntimeError` (carrying its message) and
  a constructor for every other exception class;
* `ExtendedVisionDataset` (imported by the source from `.extended`, not part
  of this fragment) is modelled from the spec where noted.
-/

namespace CC3M

/-! ## Python string primitives -/

/-- Code-point lexicographic comparison of two character lists, as CPython
compares `str` values (`paths.sort()` uses exactly this order). -/
def lexLe : List Char → List Char → Bool
  | [], _ => true
  | _ :: _, [] => false
  | a :: as, b :: bs =>
    if a.toNat < b.toNat then true
    else if b.toNat < a.toNat then false
    else lexLe as bs

/-- Python `a <= b` on strings. -/
def pyStrLe (a b : String) : Prop := lexLe a.data b.data = true

instance : DecidableRel pyStrLe := fun a b =>
  inferInstanceAs (Decidable (lexLe a.data b.data = true))

/-- Python `needle in haystack` on strings: contiguous substring test. -/
def pyIn (needle haystack : String) : Prop := needle.data <:+: haystack.data

instance (n h : String) : Decidable (pyIn n h) :=
  inferInstanceAs (Decidable (n.data <:+: h.data))

/-- Python `fname.lower()` (ASCII case folding, which is all the
extension allow-list exercises). -/
def pyLower (s : String) : List Char := s.data.map Char.toLower

/-- Python `s.endswith(suffix)`. -/
def pyEndsWith (l suffix : List Char) : Prop := suffix <:+ l

instance (l s : List Char) : Decidable (pyEndsWith l s) :=
  inferInstanceAs (Decidable (s <:+ l))

/-- Python list indexing `l[i]`: non-negative indices from the front,
negative indices resolved from the end, `IndexError` (here: `none`)
outside `[-len(l), len(l))`. -/
def pyGet? {α : Type} (l : List α) (i : Int) : Option α :=
  if 0 ≤ i then l.get? i.toNat
  else if 0 ≤ i + (l.length : Int) then l.get? (i + (l.length : Int)).toNat
  else none

/-! ## Python exceptions -/

/-- The exception classes the adapter can observe: `IndexError` from list
indexing, `RuntimeError` with its message, and a catch-all for every other
exception class (`OSError`, `MemoryError`, ...), which `except RuntimeError`
does not catch. -/
inductive PyErr : Type where
  | indexError : PyErr
  | runtimeError (msg : String) : PyErr
  | otherError (msg : String) : PyErr
deriving DecidableEq

/-! ## Filesystem model and `os.walk` -/

/-- A directory tree: regular files and subdirectories, both named. -/
inductive FSEntry : Type where
  | file (name : String)
  | dir (name : String) (entries : List FSEntry)

/-- `os.path.join` for the plain relative names produced by `os.walk`. -/
def pathJoin (dirpath fname : String) : String := dirpath ++ "/" ++ fname

/-- The filenames (non-directory entries) directly inside a directory. -/
def filesOf (entries : List FSEntry) : List String :=
  entries.filterMap fun e =>
    match e with
    | .file n => some n
    | .dir _ _ => none

mutual

/-- `os.walk` restricted to one entry: a file yields nothing, a directory
yields its own `(dirpath, filenames)` pair followed by its subtrees. -/
def walkEntry (dirpath : String) : FSEntry → List (String × List String)
  | .file _ => []
  | .dir n es => (pathJoin dirpath n, filesOf es) :: walkList (pathJoin dirpath n) es

/-- `os.walk` over a list of sibling entries. -/
def walkList (dirpath : String) : List FSEntry → List (String × List String)
  | [] => []
  | e :: es => walkEntry dirpath e ++ walkList dirpath es

end

/-- `os.walk(root)`: the root directory's own `(dirpath, filenames)` pair
first, then every nested directory, top-down. -/
def osWalk (root : String) (entries : List FSEntry) : List (String × List String) :=
  (root, filesOf entries) :: walkList root entries

/-! ## `CC3MDataset.__init__` -/

/-- `exts = (".jpg", ".jpeg", ".png", ".bmp", ".webp")`. -/
def exts : List String := [".jpg", ".jpeg", ".png", ".bmp", ".webp"]

/-- `fname.lower().endswith(exts)`. -/
def matchesExt (fname : String) : Bool :=
  exts.any fun e => decide (pyEndsWith (pyLower fname) e.data)

/-- The body of the two nested `for` loops of `__init__`: for each
`(dirpath, filenames)` pair, keep the matching filenames joined to their
directory. -/
def selectImagePaths (walkResult : List (String × List String)) : List String :=
  walkResult.flatMap fun de => (de.2.filter matchesExt).map (pathJoin de.1)

/-- All image paths collected by `__init__` before sorting. -/
def collectPaths (root : String) (entries : List FSEntry) : List String :=
  selectImagePaths (osWalk root entries)

/-- The message of the construction-time `RuntimeError`. -/
def noSamplesMsg (root : String) : String :=
  "CC3MDataset: no image files found under root=\x27" ++ root ++ "\x27"

/-- The constructed dataset object: the stored constructor arguments and
the sorted path list `_paths`. `Image` is the type of decoded images
produced by the external decoder. -/
structure CC3MDataset (Image : Type) : Type where
  root : String
  split : String
  transform : Option (Image → Image)
  target_transform : Option (Int → Int)
  paths : List String

/-- `CC3MDataset.__init__`: walk `root`, keep allow-listed filenames joined
to their directories, sort, and fail with the `RuntimeError` when nothing
was found. -/
def construct (Image : Type) (root split : String)
    (transform : Option (Image → Image)) (target_transform : Option (Int → Int))
    (entries : List FSEntry) : Except PyErr (CC3MDataset Image) :=
  let paths := List.insertionSort pyStrLe (collectPaths root entries)
  if paths.length = 0 then
    .error (.runtimeError (noSamplesMsg root))
  else
    .ok { root := root, split := split, transform := transform,
          target_transform := target_transform, paths := paths }

/-! ## The dataset methods -/

/-- The external world a `__getitem__` call touches: `open(path).read()`
(which may fail with an `OSError`-like exception) and PIL decoding
(`none` models `UnidentifiedImageError`). -/
structure Env (Image : Type) : Type where
  read : String → Except PyErr (List Nat)
  decode : List Nat → Option Image

/-- `CC3MDataset.__len__`. -/
def CC3MDataset.len {Image : Type} (ds : CC3MDataset Image) : Nat :=
  ds.paths.length

/-- `CC3MDataset.get_image_data`: `self._paths[index]` (Python list
indexing) then a whole-file read. -/
def get_image_data {Image : Type} (ds : CC3MDataset Image) (env : Env Image)
    (index : Int) : Except PyErr (List Nat) :=
  match pyGet? ds.paths index with
  | none => .error .indexError
  | some path => env.read path

/-- `CC3MDataset.get_target`: the dummy label. -/
def get_target {Image : Type} (ds : CC3MDataset Image) (index : Int) : Int :=
  0

/-- `CC3MDataset.get_targets`: `np.zeros(len(self._paths), dtype=np.int64)`. -/
def get_targets {Image : Type} (ds : CC3MDataset Image) : List Int :=
  List.replicate ds.paths.length 0

/-- Apply an optional transform hook. -/
def applyOpt {α : Type} (f : Option (α → α)) (x : α) : α :=
  match f with
  | none => x
  | some g => g x

/-- The message of the `RuntimeError` the parent class raises when PIL
cannot decode the bytes of `index` (quoted in the source's comment as
containing "can not read image for sample"). -/
def decodeFailPattern : String := "can not read image for sample"

/-- The full decode-failure message names the index that failed. -/
def decodeFailMsg (index : Int) : String :=
  decodeFailPattern ++ " " ++ toString index

/-- Modelled from the spec: `ExtendedVisionDataset.__getitem__` (the file
`dinov2/data/datasets/extended.py` is not part of this fragment). Per the
spec: resolve `paths[index]` and read its bytes (via `get_image_data`,
which is in the source), decode them, raising the "can not read image for
sample" `RuntimeError` when decoding fails; apply `transform` when present;
compute the label via `get_target` and apply `target_transform` when
present; return the pair. Read and indexing failures propagate unmodified. -/
def extendedGetitem {Image : Type} (ds : CC3MDataset Image) (env : Env Image)
    (index : Int) : Except PyErr (Image × Int) := do
  let data ← get_image_data ds env index
  match env.decode data with
  | none => .error (.runtimeError (decodeFailMsg index))
  | some img =>
    .ok (applyOpt ds.transform img, applyOpt ds.target_transform (get_target ds index))

/-- The message of the `RuntimeError` raised after exhausting the retries;
it names the original index. -/
def exhaustedMsg (index : Int) : String :=
  "CC3MDataset: too many unreadable images around index " ++ toString index ++
    ". Please check your CC3M folder for corrupt files."

/-- `max_trials = 5`. -/
def max_trials : Nat := 5

/-- The `while num_trials < max_trials` loop of `CC3MDataset.__getitem__`,
with `index` the original argument, the fuel the remaining number of
trials, and `curIndex` the index of the current attempt. A successful
parent call returns; a `RuntimeError` whose message contains the decode
pattern advances to `(curIndex + 1) % len(self._paths)` and consumes a
trial; every other error re-raises; an exhausted loop raises the
`RuntimeError` naming the original index. -/
def getitemLoop {Image : Type} (ds : CC3MDataset Image) (env : Env Image)
    (index : Int) : Nat → Int → Except PyErr (Image × Int)
  | 0, _ => .error (.runtimeError (exhaustedMsg index))
  | n + 1, curIndex =>
    match extendedGetitem ds env curIndex with
    | .ok r => .ok r
    | .error (.runtimeError msg) =>
      if pyIn decodeFailPattern msg then
        getitemLoop ds env index n ((curIndex + 1) % (ds.paths.length : Int))
      else
        .error (.runtimeError msg)
    | .error e => .error e

/-- `CC3MDataset.__getitem__`: the retry loop started with all 5 trials at
the requested index. -/
def getitem {Image : Type} (ds : CC3MDataset Image) (env : Env Image)
    (index : Int) : Except PyErr (Image × Int) :=
  getitemLoop ds env index max_trials index

/-- An error the loop retries: a `RuntimeError` whose message contains the
decode-failure pattern. -/
def retriableErr : PyErr → Prop
  | .indexError => False
  | .runtimeError msg => pyIn decodeFailPattern msg
  | .otherError _ => False

instance : (e : PyErr) → Decidable (retriableErr e)
  | .indexError => isFalse fun h => h
  | .runtimeError msg => inferInstanceAs (Decidable (pyIn decodeFailPattern msg))
  | .otherError _ => isFalse fun h => h

/-- A parent-call outcome the loop retries. -/
def retriableResult {α : Type} : Except PyErr α → Prop
  | .ok _ => False
  | .error e => retriableErr e

instance {α : Type} : (r : Except PyErr α) → Decidable (retriableResult r)
  | .ok _ => isFalse fun h => h
  | .error e => inferInstanceAs (Decidable (retriableErr e))

/-- The sequence of indices the retry loop visits: `chainIdx len start k`
is the index of attempt `k` (zero-based) when every earlier attempt was a
retried decode failure. -/
def chainIdx (len start : Int) : Nat → Int
  | 0 => start
  | k + 1 => (chainIdx len start k + 1) % len

instance {ε α : Type} [DecidableEq ε] [DecidableEq α] : DecidableEq (Except ε α) := fun x y =>
  match x, y with
  | .ok a, .ok b => decidable_of_iff (a = b) (by simp)
  | .ok _, .error _ => isFalse (by simp)
  | .error _, .ok _ => isFalse (by simp)
  | .error e, .error f => decidable_of_iff (e = f) (by simp)

/-! ## The sort order is a linear order -/

lemma charToNat_inj {a b : Char} (h : a.toNat = b.toNat) : a = b :=
  Char.ext (UInt32.ext h)

lemma lexLe_total : ∀ a b : List Char, lexLe a b = true ∨ lexLe b a = true
  | [], _ => Or.inl rfl
  | _ :: _, [] => Or.inr rfl
  | a :: as, b :: bs => by
    by_cases h1 : a.toNat < b.toNat
    · left; simp [lexLe, h1]
    by_cases h2 : b.toNat < a.toNat
    · right; simp [lexLe, h2]
    rcases lexLe_total as bs with h | h
    · left; simp [lexLe, h1, h2, h]
    · right; simp [lexLe, h1, h2, h]

lemma lexLe_trans : ∀ a b c : List Char,
    lexLe a b = true → lexLe b c = true → lexLe a c = true
  | [], _, _, _, _ => rfl
  | _ :: _, [], _, hab, _ => by simp [lexLe] at hab
  | _ :: _, _ :: _, [], _, hbc => by simp [lexLe] at hbc
  | a :: as, b :: bs, c :: cs, hab, hbc => by
    simp only [lexLe] at hab hbc ⊢
    by_cases h1 : a.toNat < b.toNat
    · by_cases h2 : b.toNat < c.toNat
      · rw [if_pos (Nat.lt_trans h1 h2)]
      · by_cases h3 : c.toNat < b.toNat
        · rw [if_neg h2, if_pos h3] at hbc; exact absurd hbc (by simp)
        · rw [if_pos (by omega : a.toNat < c.toNat)]
    · by_cases h1' : b.toNat < a.toNat
      · rw [if_neg h1, if_pos h1'] at hab; exact absurd hab (by simp)
      · rw [if_neg h1, if_neg h1'] at hab
        by_cases h2 : b.toNat < c.toNat
        · rw [if_pos (by omega : a.toNat < c.toNat)]
        · by_cases h3 : c.toNat < b.toNat
          · rw [if_neg h2, if_pos h3] at hbc; exact absurd hbc (by simp)
          · rw [if_neg h2, if_neg h3] at hbc
            rw [if_neg (by omega : ¬ a.toNat < c.toNat),
              if_neg (by omega : ¬ c.toNat < a.toNat)]
            exact lexLe_trans as bs cs hab hbc

lemma lexLe_antisymm : ∀ a b : List Char,
    lexLe a b = true → lexLe b a = true → a = b
  | [], [], _, _ => rfl
  | [], _ :: _, _, hba => by simp [lexLe] at hba
  | _ :: _, [], hab, _ => by simp [lexLe] at hab
  | a :: as, b :: bs, hab, hba => by
    simp only [lexLe] at hab hba
    by_cases h1 : a.toNat < b.toNat
    · rw [if_neg (by omega : ¬ b.toNat < a.toNat), if_pos h1] at hba
      exact absurd hba (by simp)
    · by_cases h1' : b.toNat < a.toNat
      · rw [if_neg h1, if_pos h1'] at hab
        exact absurd hab (by simp)
      · rw [if_neg h1, if_neg h1'] at hab
        rw [if_neg h1', if_neg h1] at hba
        have heq : a = b := charToNat_inj (by omega)
        rw [heq, lexLe_antisymm as bs hab hba]

instance : IsTotal String pyStrLe :=
  ⟨fun a b => lexLe_total a.data b.data⟩

instance : IsTrans String pyStrLe :=
  ⟨fun a b c hab hbc => lexLe_trans a.data b.data c.data hab hbc⟩

instance : IsAntisymm String pyStrLe :=
  ⟨fun a b hab hba => String.ext (lexLe_antisymm a.data b.data hab hba)⟩

/-! ## Unfolding laws for the retry loop -/

lemma getitemLoop_ok {Image : Type} {ds : CC3MDataset Image} {env : Env Image}
    (idx : Int) (n : Nat) {cur : Int} {r : Image × Int}
    (hok : extendedGetitem ds env cur = .ok r) :
    getitemLoop ds env idx (n + 1) cur = .ok r := by
  simp [getitemLoop, hok]

lemma getitemLoop_retry {Image : Type} {ds : CC3MDataset Image} {env : Env Image}
    (idx : Int) (n : Nat) {cur : Int}
    (hf : retriableResult (extendedGetitem ds env cur)) :
    getitemLoop ds env idx (n + 1) cur =
      getitemLoop ds env idx n ((cur + 1) % (ds.paths.length : Int)) := by
  cases hE : extendedGetitem ds env cur with
  | ok r => rw [hE] at hf; exact absurd hf (fun h => h)
  | error e =>
    rw [hE] at hf
    cases e with
    | indexError => exact absurd hf (fun h => h)
    | otherError m => exact absurd hf (fun h => h)
    | runtimeError m =>
      have hf' : pyIn decodeFailPattern m := hf
      simp only [getitemLoop, hE]
      rw [if_pos hf']

lemma getitemLoop_propagate {Image : Type} {ds : CC3MDataset Image} {env : Env Image}
    {idx : Int} {n : Nat} {cur : Int} {e : PyErr}
    (he : extendedGetitem ds env cur = .error e) (hn : ¬ retriableErr e) :
    getitemLoop ds env idx (n + 1) cur = .error e := by
  cases e with
  | indexError => simp [getitemLoop, he]
  | otherError m => simp [getitemLoop, he]
  | runtimeError m =>
    have hn' : ¬ pyIn decodeFailPattern m := fun hc => hn hc
    simp only [getitemLoop, he]
    rw [if_neg hn']

lemma chainIdx_shift (len start : Int) :
    ∀ k : Nat, chainIdx len start (k + 1) = chainIdx len ((start + 1) % len) k
  | 0 => rfl
  | k + 1 => by
    show (chainIdx len start (k + 1) + 1) % len =
      (chainIdx len ((start + 1) % len) k + 1) % len
    rw [chainIdx_shift len start k]

lemma getitemLoop_exhausted {Image : Type} (ds : CC3MDataset Image) (env : Env Image)
    (idx : Int) :
    ∀ (n : Nat) (cur : Int),
      (∀ k, k < n →
        retriableResult (extendedGetitem ds env (chainIdx (ds.paths.length : Int) cur k))) →
      getitemLoop ds env idx n cur = .error (.runtimeError (exhaustedMsg idx))
  | 0, _, _ => rfl
  | n + 1, cur, hall => by
    have h0 : retriableResult (extendedGetitem ds env cur) := hall 0 (Nat.succ_pos n)
    rw [getitemLoop_retry idx n h0]
    exact getitemLoop_exhausted ds env idx n ((cur + 1) % (ds.paths.length : Int))
      (fun k hk => by
        have h := hall (k + 1) (Nat.succ_lt_succ hk)
        rwa [chainIdx_shift] at h)

/-! ## Concrete fixtures

Decoded images are byte lists; decoding fails exactly on empty byte
content (a truncated file). -/

/-- A three-file dataset, paths already in sorted order. -/
def dsABC : CC3MDataset (List Nat) :=
  { root := "root", split := "TRAIN", transform := none, target_transform := none,
    paths := ["root/a.jpg", "root/b.png", "root/c.bmp"] }

/-- A two-file dataset. -/
def dsAB : CC3MDataset (List Nat) :=
  { root := "root", split := "TRAIN", transform := none, target_transform := none,
    paths := ["root/a.jpg", "root/b.png"] }

/-- `a.jpg` and `b.png` valid, everything else truncated. -/
def envA : Env (List Nat) :=
  { read := fun p =>
      if p = "root/a.jpg" then .ok [10]
      else if p = "root/b.png" then .ok [20]
      else .ok [],
    decode := fun bs => if bs.isEmpty then none else some bs }

/-- All three files valid. -/
def envB : Env (List Nat) :=
  { read := fun p =>
      if p = "root/a.jpg" then .ok [10]
      else if p = "root/b.png" then .ok [20]
      else if p = "root/c.bmp" then .ok [30]
      else .ok [],
    decode := fun bs => if bs.isEmpty then none else some bs }

/-- `a.jpg` truncated, `b.png` valid. -/
def envC : Env (List Nat) :=
  { read := fun p => if p = "root/b.png" then .ok [20] else .ok [],
    decode := fun bs => if bs.isEmpty then none else some bs }

/-- Every file truncated. -/
def envBad : Env (List Nat) :=
  { read := fun _ => .ok [],
    decode := fun bs => if bs.isEmpty then none else some bs }

/-- Every read fails with a permission error (an `OSError`, not a
`RuntimeError`). -/
def envPerm : Env (List Nat) :=
  { read := fun _ => .error (.otherError "permission denied"),
    decode := fun _ => none }

/-- A small directory tree: two images at the root, one (upper-case
extension) in a subdirectory, two non-image files. -/
def demoEntries : List FSEntry :=
  [.dir "sub" [.file "B.JPG", .file "notes.txt"],
   .file "b.png", .file "a.jpg", .file "README.md"]

/-- What constructing over `demoEntries` yields for the "TRAIN" split. -/
def dsDemoTrain : CC3MDataset (List Nat) :=
  { root := "root", split := "TRAIN", transform := none, target_transform := none,
    paths := ["root/a.jpg", "root/b.png", "root/sub/B.JPG"] }

/-- What constructing over `demoEntries` yields for the "VAL" split. -/
def dsDemoVal : CC3MDataset (List Nat) :=
  { root := "root", split := "VAL", transform := none, target_transform := none,
    paths := ["root/a.jpg", "root/b.png", "root/sub/B.JPG"] }

/-! ## Claims -/

/-- C1: for every in-range index whose decode attempt fails, `__getitem__`
advances to `(index + 1) % len(self._paths)` and retries (returning that
attempt's value when it succeeds), and it makes at most `max_trials = 5`
decode attempts in total: when the first five attempted indices all fail
to decode it gives up with the exhausted-retries error. -/
theorem getitem_retry_bounded {Image : Type} (ds : CC3MDataset Image) (env : Env Image)
    (index : Int) (_h0 : 0 ≤ index) (_h1 : index < (ds.paths.length : Int))
    (hfail : retriableResult (extendedGetitem ds env index)) :
    (∀ r, extendedGetitem ds env ((index + 1) % (ds.paths.length : Int)) = .ok r →
      getitem ds env index = .ok r) ∧
    ((∀ k, k < max_trials →
        retriableResult (extendedGetitem ds env (chainIdx (ds.paths.length : Int) index k))) →
      getitem ds env index = .error (.runtimeError (exhaustedMsg index))) := by
  constructor
  · intro r hr
    show getitemLoop ds env index 5 index = .ok r
    rw [getitemLoop_retry index 4 hfail]
    exact getitemLoop_ok index 3 hr
  · intro hall
    exact getitemLoop_exhausted ds env index max_trials index hall

theorem getitem_retry_bounded_witness :
    getitem dsAB envC 0 = .ok ([20], 0) :=
  (getitem_retry_bounded dsAB envC 0 (by decide) (by decide) (by decide)).1
    ([20], 0) (by decide)

/-- C2: when all 5 decode attempts fail, `__getitem__` fails with the
exhausted-retries `RuntimeError` whose message names the original index
(the message is built from `index`, not from the last index tried), telling
the caller to check the folder for corrupt files. -/
theorem getitem_exhausted_names_original_index {Image : Type} (ds : CC3MDataset Image)
    (env : Env Image) (index : Int)
    (_h0 : 0 ≤ index) (_h1 : index < (ds.paths.length : Int))
    (hall : ∀ k, k < max_trials →
      retriableResult (extendedGetitem ds env (chainIdx (ds.paths.length : Int) index k))) :
    getitem ds env index = .error (.runtimeError (exhaustedMsg index)) ∧
    pyIn (toString index) (exhaustedMsg index) := by
  refine ⟨getitemLoop_exhausted ds env index max_trials index hall, ?_⟩
  show (toString index).data <:+: (exhaustedMsg index).data
  refine ⟨"CC3MDataset: too many unreadable images around index ".data,
    ". Please check your CC3M folder for corrupt files.".data, ?_⟩
  simp [exhaustedMsg, String.data_append]

theorem getitem_exhausted_names_original_index_witness :
    getitem dsABC envBad 1 = .error (.runtimeError (exhaustedMsg 1)) ∧
    pyIn (toString (1 : Int)) (exhaustedMsg 1) :=
  getitem_exhausted_names_original_index dsABC envBad 1
    (by decide) (by decide) (by decide)

/-- C3: any failure of the parent call other than the "can not read image
for sample" `RuntimeError` is not retried: `__getitem__` propagates it
immediately and unchanged. -/
theorem getitem_propagates_non_decode_errors {Image : Type} (ds : CC3MDataset Image)
    (env : Env Image) (index : Int) (e : PyErr)
    (herr : extendedGetitem ds env index = .error e)
    (hnot : ¬ retriableErr e) :
    getitem ds env index = .error e :=
  getitemLoop_propagate herr hnot

theorem getitem_propagates_non_decode_errors_witness :
    getitem dsABC envPerm 1 = .error (.otherError "permission denied") :=
  getitem_propagates_non_decode_errors dsABC envPerm 1
    (.otherError "permission denied") (by decide) (by decide)

/-- C6 counterexample: the claim says no sample is returned for any
negative index, but Python list indexing resolves `-1` from the end:
on a three-file dataset of valid images, `__getitem__(-1)` returns the
last sample instead of failing. -/
theorem getitem_negative_index_counterexample :
    (-1 : Int) < 0 ∧ (dsABC.paths.length : Int) = 3 ∧
    getitem dsABC envB (-1) = .ok ([30], 0) := by decide

/-- C6 (amended): for every index that is out of range even for Python's
sequence semantics (`index ≥ Length()` or `index < -Length()`),
`__getitem__` fails with `IndexError`; indices in `[-Length(), -1]` are
resolved from the end by the underlying list access. -/
theorem getitem_out_of_range {Image : Type} (ds : CC3MDataset Image) (env : Env Image)
    (index : Int)
    (h : index < -(ds.paths.length : Int) ∨ (ds.paths.length : Int) ≤ index) :
    getitem ds env index = .error .indexError := by
  have hget : pyGet? ds.paths index = none := by
    unfold pyGet?
    rcases h with h | h
    · rw [if_neg (by omega), if_neg (by omega)]
    · rw [if_pos (by omega)]
      exact List.get?_eq_none.mpr (by omega)
  have hext : extendedGetitem ds env index = .error .indexError := by
    unfold extendedGetitem get_image_data
    rw [hget]
    rfl
  exact getitemLoop_propagate hext (fun hh => hh)

theorem getitem_out_of_range_witness :
    getitem dsABC envB 3 = .error .indexError :=
  getitem_out_of_range dsABC envB 3 (Or.inr (by decide))

/-- C9: on the dataset with sorted paths `a.jpg` (valid), `b.png` (valid),
`c.bmp` (corrupt), `__getitem__(2)` fails to decode `c.bmp`, wraps around
to index `(2 + 1) % 3 = 0`, and succeeds after exactly one retry with the
decoded content of `a.jpg`. -/
theorem getitem_wraparound_example :
    getitem dsABC envA 2 = .ok ([10], 0) ∧
    extendedGetitem dsABC envA 2 = .error (.runtimeError (decodeFailMsg 2)) ∧
    ((2 + 1 : Int) % (dsABC.paths.length : Int) = 0) ∧
    extendedGetitem dsABC envA 0 = .ok ([10], 0) := by decide

/-- C4: whenever the recursive walk discovers at least one allow-listed
file, construction succeeds; the stored path list is a permutation of the
discovered matching full paths, it is sorted in Python's lexicographic
string order, it is the unique such list, and `__len__` returns the number
of discovered matching files. -/
theorem construct_discovers_sorts (Image : Type) (root split : String)
    (transform : Option (Image → Image)) (target_transform : Option (Int → Int))
    (entries : List FSEntry) (h : collectPaths root entries ≠ []) :
    ∃ ds : CC3MDataset Image,
      construct Image root split transform target_transform entries = .ok ds ∧
      ds.paths.Perm (collectPaths root entries) ∧
      List.Sorted pyStrLe ds.paths ∧
      (∀ l : List String, l.Perm (collectPaths root entries) →
        List.Sorted pyStrLe l → ds.paths = l) ∧
      CC3MDataset.len ds = (collectPaths root entries).length := by
  have hperm := List.perm_insertionSort pyStrLe (collectPaths root entries)
  have hsort := List.sorted_insertionSort pyStrLe (collectPaths root entries)
  have hlen : ¬ (List.insertionSort pyStrLe (collectPaths root entries)).length = 0 := by
    rw [List.length_insertionSort]
    exact fun h0 => h (List.eq_nil_of_length_eq_zero h0)
  refine ⟨{ root := root, split := split, transform := transform,
            target_transform := target_transform,
            paths := List.insertionSort pyStrLe (collectPaths root entries) },
    ?_, hperm, hsort, ?_, ?_⟩
  · show (if (List.insertionSort pyStrLe (collectPaths root entries)).length = 0
      then _ else _) = _
    rw [if_neg hlen]
  · intro l hl hsl
    exact List.eq_of_perm_of_sorted (hperm.trans hl.symm) hsort hsl
  · show (List.insertionSort pyStrLe (collectPaths root entries)).length = _
    exact List.length_insertionSort pyStrLe (collectPaths root entries)

theorem construct_discovers_sorts_witness :
    ∃ ds : CC3MDataset (List Nat),
      construct (List Nat) "root" "TRAIN" none none demoEntries = .ok ds ∧
      ds.paths.Perm (collectPaths "root" demoEntries) ∧
      List.Sorted pyStrLe ds.paths ∧
      (∀ l : List String, l.Perm (collectPaths "root" demoEntries) →
        List.Sorted pyStrLe l → ds.paths = l) ∧
      CC3MDataset.len ds = (collectPaths "root" demoEntries).length :=
  construct_discovers_sorts (List Nat) "root" "TRAIN" none none demoEntries (by decide)

/-- C5: when the walk discovers zero allow-listed files, construction
itself fails with the `RuntimeError` whose message names the root
directory — no dataset object is produced, so the failure cannot be
deferred to an access. -/
theorem construct_no_samples_error (Image : Type) (root split : String)
    (transform : Option (Image → Image)) (target_transform : Option (Int → Int))
    (entries : List FSEntry) (h : collectPaths root entries = []) :
    construct Image root split transform target_transform entries =
      .error (.runtimeError (noSamplesMsg root)) ∧
    pyIn root (noSamplesMsg root) := by
  constructor
  · show (if (List.insertionSort pyStrLe (collectPaths root entries)).length = 0
      then _ else _) = _
    rw [h]
    rfl
  · show root.data <:+: (noSamplesMsg root).data
    refine ⟨"CC3MDataset: no image files found under root=\x27".data, "\x27".data, ?_⟩
    simp [noSamplesMsg, String.data_append]

theorem construct_no_samples_error_witness :
    construct (List Nat) "r" "TRAIN" none none [.file "x.txt"] =
      .error (.runtimeError (noSamplesMsg "r")) ∧
    pyIn "r" (noSamplesMsg "r") :=
  construct_no_samples_error (List Nat) "r" "TRAIN" none none [.file "x.txt"] (by decide)

/-- Every successfully constructed dataset stores the sorted collected
paths; in particular the stored list does not depend on `split` or on the
transform hooks. -/
lemma construct_paths_eq {Image : Type} {root split : String}
    {transform : Option (Image → Image)} {target_transform : Option (Int → Int)}
    {entries : List FSEntry} {ds : CC3MDataset Image}
    (h : construct Image root split transform target_transform entries = .ok ds) :
    ds.paths = List.insertionSort pyStrLe (collectPaths root entries) := by
  simp only [construct] at h
  by_cases hlen : (List.insertionSort pyStrLe (collectPaths root entries)).length = 0
  · rw [if_pos hlen] at h
    exact absurd h (by simp)
  · rw [if_neg hlen] at h
    injection h with h'
    rw [← h']

/-- C7: construction is deterministic and the split identifier (and the
transform hooks) never influence the discovered path list: two successful
constructions over the same tree agree on `_paths` element for element. -/
theorem construct_split_independent {Image : Type} (root s1 s2 : String)
    (tf1 tf2 : Option (Image → Image)) (ttf1 ttf2 : Option (Int → Int))
    (entries : List FSEntry) (ds1 ds2 : CC3MDataset Image)
    (h1 : construct Image root s1 tf1 ttf1 entries = .ok ds1)
    (h2 : construct Image root s2 tf2 ttf2 entries = .ok ds2) :
    ds1.paths = ds2.paths := by
  rw [construct_paths_eq h1, construct_paths_eq h2]

theorem construct_split_independent_witness :
    dsDemoTrain.paths = dsDemoVal.paths :=
  construct_split_independent "root" "TRAIN" "VAL" none none none none demoEntries
    dsDemoTrain dsDemoVal rfl rfl

/-- C8: for an in-range index whose file reads and decodes successfully,
the label component of the returned pair is the placeholder `0` (with no
`target_transform` installed), whatever the index and the file content;
`get_target` itself is the constant `0`. -/
theorem getitem_label_placeholder {Image : Type} (ds : CC3MDataset Image)
    (env : Env Image) (index : Int) (path : String) (data : List Nat) (img : Image)
    (httf : ds.target_transform = none)
    (hpath : pyGet? ds.paths index = some path)
    (hread : env.read path = .ok data)
    (hdec : env.decode data = some img) :
    get_target ds index = 0 ∧
    getitem ds env index = .ok (applyOpt ds.transform img, 0) := by
  have hok : extendedGetitem ds env index = .ok (applyOpt ds.transform img, 0) := by
    simp only [extendedGetitem, get_image_data, hpath, hread, bind, Except.bind, hdec,
      httf, get_target, applyOpt]
  exact ⟨rfl, getitemLoop_ok index 4 hok⟩

theorem getitem_label_placeholder_witness :
    get_target dsABC (1 : Int) = 0 ∧ getitem dsABC envB 1 = .ok ([20], 0) :=
  getitem_label_placeholder dsABC envB 1 "root/b.png" [20] [20]
    rfl (by decide) (by decide) (by decide)

/-- C10: `get_targets` returns one entry per path — its length is
`__len__()` — and every entry is the integer `0`, which is also what
`get_target` returns at that position. -/
theorem get_targets_all_zero {Image : Type} (ds : CC3MDataset Image) :
    (get_targets ds).length = CC3MDataset.len ds ∧
    ∀ i : Nat, i < (get_targets ds).length →
      ((get_targets ds).get? i = some 0 ∧ get_target ds (i : Int) = 0) := by
  refine ⟨by simp [get_targets, CC3MDataset.len], fun i hi => ⟨?_, rfl⟩⟩
  rw [get_targets] at hi ⊢
  rw [List.get?_eq_get hi, List.get_replicate]

theorem get_targets_all_zero_witness :
    (get_targets dsABC).length = CC3MDataset.len dsABC ∧
    (get_targets dsABC).get? 0 = some 0 ∧ get_target dsABC (0 : Int) = 0 := by
  have h := get_targets_all_zero dsABC
  exact ⟨h.1, (h.2 0 (by decide)).1, (h.2 0 (by decide)).2⟩

end CC3M
